import Mathlib

/-!
A shallow embedding of the membership-management backend (Express + Sequelize)
and proofs of the specified properties of its route handlers.

The relational store is embedded as lists of records, one list per table.
Every route handler becomes a pure function from its request parameters and
the store to a response together with the updated store.  Timestamps produced
by the runtime (the current date, generated transaction ids, generated member
ids) are passed to the handlers as explicit arguments, since the source reads
them from the clock and from a random generator.
-/

namespace MemberMgmt

/-- Calendar dates are embedded as `YYYYMMDD` numerals (for example
`20240601` for 2024-06-01), so that the timestamp order used by
`moment(a).isBefore(b)` in the source is plain `<` on `Nat`, and
`moment(d).add(1, year)` (same month and day, next year) is `+ 10000`. -/
abbrev SDate := Nat

/-- `moment(d).add(1, year)` : same month and day, next year. -/
def addOneYear (d : SDate) : SDate := d + 10000

/-- `membership_type` enum of the members table. -/
inductive MembershipType where
  | basic | premium | vip | lifetime
deriving DecidableEq, Repr

/-- `status` enum of the members table. -/
inductive MemberStatus where
  | active | inactive | suspended | expired
deriving DecidableEq, Repr

/-- `payment_type` enum of the payments table. -/
inductive PaymentType where
  | membership_fee | renewal | donation | event_fee
deriving DecidableEq, Repr

/-- `payment_method` enum of the payments table. -/
inductive PaymentMethod where
  | cash | card | bank_transfer | online
deriving DecidableEq, Repr

/-- `status` enum of the payments table. -/
inductive PaymentStatus where
  | pending | completed | failed | refunded
deriving DecidableEq, Repr

/-- `event_type` enum of the events table. -/
inductive EventType where
  | meeting | workshop | social | training | conference
deriving DecidableEq, Repr

/-- `status` enum of the events table. -/
inductive EventStatus where
  | upcoming | ongoing | completed | cancelled
deriving DecidableEq, Repr

/-- `status` enum of the event_attendances table. -/
inductive AttendanceStatus where
  | registered | attended | no_show | cancelled
deriving DecidableEq, Repr

/-- `status` enum of the notifications table. -/
inductive NotificationStatus where
  | unread | read | sent
deriving DecidableEq, Repr

/-- `type` enum of the notifications table. -/
inductive NotificationType where
  | event_reminder | membership_expiry | announcement | payment_reminder | general
deriving DecidableEq, Repr

/-- A row of the members table (models/Member.js).  The schema has no
password column: the `password` attribute passed to `Member.create` by the
mobile register route is silently dropped by the ORM, and `member.password`
reads back as undefined. -/
structure Member where
  id : Nat
  member_id : String
  first_name : String
  last_name : String
  email : String
  phone : String
  date_of_birth : SDate
  address : String
  membership_type : MembershipType
  status : MemberStatus
  join_date : SDate
  expiry_date : SDate
  zone_id : Nat
  profile_image : Option String := none
  qr_code : Option String := none
  is_active : Bool := true
deriving DecidableEq, Repr

/-- A row of the payments table (models/Payment.js).  The DECIMAL(10,2)
amounts are embedded as integer cents (99.99 becomes 9999), which keeps
every monetary comparison exact and computable. -/
structure Payment where
  id : Nat
  member_id : Nat
  amount : Int
  payment_type : PaymentType
  payment_method : PaymentMethod
  status : PaymentStatus := PaymentStatus.pending
  transaction_id : Option String := none
  receipt_url : Option String := none
  payment_date : SDate
  description : Option String := none
  is_active : Bool := true
deriving DecidableEq, Repr

/-- A row of the events table (models/Event.js).  `max_attendees` is a
nullable INTEGER column, embedded as `Option Int`. -/
structure Event where
  id : Nat
  title : String
  description : Option String := none
  event_date : SDate
  end_date : Option SDate := none
  location : String
  event_type : EventType
  max_attendees : Option Int := none
  registration_fee : Option Int := some 0
  status : EventStatus := EventStatus.upcoming
  image_url : Option String := none
  is_active : Bool := true
deriving DecidableEq, Repr

/-- A row of the event_attendances table (models/EventAttendance.js).
The table carries a unique index on (event_id, member_id). -/
structure EventAttendance where
  id : Nat
  event_id : Nat
  member_id : Nat
  status : AttendanceStatus := AttendanceStatus.registered
  registration_date : SDate
  attendance_date : Option SDate := none
  payment_id : Option Nat := none
  notes : Option String := none
deriving DecidableEq, Repr

/-- A row of the notifications table (models/Notification.js).
`member_id` is nullable: broadcast rows have no member. -/
structure Notification where
  id : Nat
  member_id : Option Nat := none
  title : String
  message : String
  ntype : NotificationType
  status : NotificationStatus := NotificationStatus.unread
  scheduled_at : Option SDate := none
  sent_at : Option SDate := none
  read_at : Option SDate := none
  is_broadcast : Bool := false
  is_active : Bool := true
deriving DecidableEq, Repr

/-- The relational store: one list per table.  Zones carry no behaviour the
verified routes read, so the zones table is kept as a list of (id, name)
pairs. -/
structure Store where
  zones : List (Nat × String) := []
  members : List Member := []
  payments : List Payment := []
  events : List Event := []
  attendances : List EventAttendance := []
  notifications : List Notification := []
deriving DecidableEq, Repr

/-- The outcome of a route handler: the JSON payload on success, or an
HTTP status code with the error message the handler emits. -/
inductive Resp (α : Type) where
  | ok : α → Resp α
  | err : Nat → String → Resp α
deriving DecidableEq, Repr

/-- Name of a membership type as it appears in request bodies and in the
strings the handlers interpolate. -/
def MembershipType.name : MembershipType → String
  | MembershipType.basic => "basic"
  | MembershipType.premium => "premium"
  | MembershipType.vip => "vip"
  | MembershipType.lifetime => "lifetime"

/-- The QR payload computed by the Member model hooks (beforeCreate and
beforeUpdate).  `QRCode.toDataURL` of the JSON payload is modelled as an
injective tagging of the payload fields, since no claim inspects the
base64 image itself. -/
def makeQr (member_id first_name last_name : String) (t : MembershipType) : String :=
  "dataurl:memberId=" ++ member_id ++ ";name=" ++ first_name ++ " " ++ last_name
    ++ ";type=" ++ t.name

/-- `generateToken` from middleware/auth.js: a signed token carrying the
member primary key, modelled as a tagged string. -/
def generateToken (memberId : Nat) : String := "jwt:" ++ toString memberId

/-- Model of the bcrypt hash of a password: an injective tagging. -/
def hashPassword (password : String) : String := "bcrypt$" ++ password

/-- Model of `bcrypt.compare password hash`: true exactly when the hash is
the hash of the password.  In particular comparing against the empty
string (the value `member.password || ""` takes, since the members table
has no password column) is always false, matching bcrypt rejecting an
invalid hash. -/
def bcryptCompare (password hash : String) : Bool := hash == hashPassword password

/-! ## Case-insensitive substring matching (the `iLike` operator) -/

/-- Character-wise lowercasing, the case folding `ILIKE` performs. -/
def lowerList (l : List Char) : List Char := l.map Char.toLower

/-- `leadsWith needle hay` : `needle` is an initial run of `hay`. -/
def leadsWith : List Char → List Char → Bool
  | [], _ => true
  | _ :: _, [] => false
  | a :: as, b :: bs => a == b && leadsWith as bs

/-- `occursIn needle hay` : `needle` occurs contiguously somewhere in
`hay`. -/
def occursIn (needle : List Char) : List Char → Bool
  | [] => leadsWith needle []
  | c :: cs => leadsWith needle (c :: cs) || occursIn needle cs

/-- The SQL pattern `field ILIKE %search%`: case-insensitive containment of
the search text in the field. -/
def iLike (field search : String) : Bool :=
  occursIn (lowerList search.toList) (lowerList field.toList)

/-! ## Route handlers

Each handler takes the request parameters (plus the runtime-supplied values
it reads: the current date, generated ids) and the store, and returns the
response with the updated store. -/

/-- The rows counted by the capacity check of POST /api/members/register-event:
attendances of the event whose status is still `registered`. -/
def registeredCount (event_id : Nat) (s : Store) : Nat :=
  (s.attendances.filter (fun a =>
    a.event_id == event_id && a.status == AttendanceStatus.registered)).length

/-- The capacity test of POST /api/members/register-event.  The source
guards the whole check with `if (event.max_attendees)`, so a null or zero
`max_attendees` (both falsy in JS) skips the check entirely; otherwise the
event is full when `currentAttendees >= event.max_attendees`. -/
def eventIsFull (event : Event) (event_id : Nat) (s : Store) : Bool :=
  match event.max_attendees with
  | none => false
  | some mx => mx != 0 && decide ((mx : Int) ≤ (registeredCount event_id s : Int))

/-- POST /api/members/register-event (mobile members router in
src/api/routes/notifications.js).  Validation: `member_id` and `event_id`
are integers at least 1.  Then: 404 if the member or the event is absent,
400 `Event is full` if the capacity check fires, 400 `Already registered
for this event` if an attendance row for the pair exists, and otherwise a
new `registered` attendance row is inserted. -/
def registerForEvent (now : SDate) (member_id event_id : Nat) (s : Store) :
    Resp Unit × Store :=
  if ¬ (1 ≤ member_id ∧ 1 ≤ event_id) then
    (Resp.err 400 "validation failed", s)
  else
    match s.members.find? (fun m => m.id == member_id) with
    | none => (Resp.err 404 "Member not found", s)
    | some _ =>
      match s.events.find? (fun e => e.id == event_id) with
      | none => (Resp.err 404 "Event not found", s)
      | some event =>
        if eventIsFull event event_id s then
          (Resp.err 400 "Event is full", s)
        else
          match s.attendances.find? (fun a =>
              a.member_id == member_id && a.event_id == event_id) with
          | some _ => (Resp.err 400 "Already registered for this event", s)
          | none =>
            let registration : EventAttendance :=
              { id := s.attendances.length + 1
                event_id := event_id
                member_id := member_id
                status := AttendanceStatus.registered
                registration_date := now }
            (Resp.ok (), { s with attendances := s.attendances ++ [registration] })

/-- POST /api/members/renewal (mobile members router in
src/api/routes/notifications.js).  `txnId` stands for the generated
`TXN...` transaction id.  Validation: `member_id` an integer at least 1,
`amount` a float at least 0 (the two enum-typed fields are valid by
construction).  New expiry: one year past the current expiry when it is
still in the future, else one year from now.  A completed renewal Payment
row is inserted and the member row is updated; updating `membership_type`
makes the beforeUpdate hook recompute the QR payload. -/
def renewal (now : SDate) (txnId : String) (member_id : Nat)
    (membership_type : MembershipType) (payment_method : PaymentMethod)
    (amount : Int) (s : Store) : Resp Unit × Store :=
  if ¬ (1 ≤ member_id ∧ 0 ≤ amount) then
    (Resp.err 400 "validation failed", s)
  else
    match s.members.find? (fun m => m.id == member_id) with
    | none => (Resp.err 404 "Member not found", s)
    | some member =>
      let newExpiry :=
        if member.expiry_date < now then addOneYear now
        else addOneYear member.expiry_date
      let payment : Payment :=
        { id := s.payments.length + 1
          member_id := member_id
          amount := amount
          payment_type := PaymentType.renewal
          payment_method := payment_method
          status := PaymentStatus.completed
          transaction_id := some txnId
          payment_date := now
          description := some ("Membership renewal - " ++ membership_type.name) }
      let s1 :=
        { s with
          payments := s.payments ++ [payment]
          members := s.members.map (fun m =>
            if m.id == member_id then
              { m with
                membership_type := membership_type
                status := MemberStatus.active
                expiry_date := newExpiry
                qr_code :=
                  if m.membership_type == membership_type then m.qr_code
                  else some (makeQr m.member_id m.first_name m.last_name membership_type) }
            else m) }
      (Resp.ok (), s1)

/-- The count returned by GET /api/notifications/unread-count: rows whose
status is `unread` and which either address the member or are broadcast. -/
def unreadCount (member_id : Nat) (s : Store) : Nat :=
  (s.notifications.filter (fun n =>
    (n.member_id == some member_id || n.is_broadcast) &&
    n.status == NotificationStatus.unread)).length

/-- The per-row effect of the UPDATE issued by
PATCH /api/notifications/mark-all-read: an unread row addressed to the
member or broadcast becomes read with `read_at` set to now; any other row
is untouched. -/
def touchRow (now : SDate) (member_id : Nat) (n : Notification) : Notification :=
  if (n.member_id == some member_id || n.is_broadcast) &&
     n.status == NotificationStatus.unread then
    { n with status := NotificationStatus.read, read_at := some now }
  else n

/-- PATCH /api/notifications/mark-all-read.  Validation: `member_id` an
integer at least 1.  Every unread row addressed to the member or broadcast
becomes `read` with `read_at` set to now. -/
def markAllRead (now : SDate) (member_id : Nat) (s : Store) : Resp Unit × Store :=
  if ¬ 1 ≤ member_id then
    (Resp.err 400 "validation failed", s)
  else
    (Resp.ok (),
     { s with notifications := s.notifications.map (touchRow now member_id) })

/-- The member summary and token returned by POST /api/auth/login. -/
structure LoginSummary where
  token : String
  id : Nat
  member_id : String
  first_name : String
  last_name : String
  email : String
  membership_type : MembershipType
  status : MemberStatus
  expiry_date : SDate
  qr_code : Option String
deriving DecidableEq, Repr

/-- The `.trim()` sanitizer of express-validator: leading and trailing
whitespace removed. -/
def trimStr (s : String) : String :=
  String.mk (((s.toList.dropWhile Char.isWhitespace).reverse.dropWhile
    Char.isWhitespace).reverse)

/-- The where-clause of the login query: an active-flagged member whose
email, phone or member_id equals the identifier. -/
def loginMatch (ident : String) (m : Member) : Bool :=
  m.is_active && (m.email == ident || m.phone == ident || m.member_id == ident)

/-- POST /api/auth/login (src/api/routes/auth.js).  Validation: nonempty
identifier, nonempty password of length at least 6; the identifier is then
trimmed by the sanitizer.  The query returns the first active-flagged
member whose email, phone or member_id equals the identifier.  Login
requires `status == active` and either the fixed bypass password
`password123` or a bcrypt match against `member.password || ""` (always
the empty string, the schema having no password column). -/
def login (identifier password : String) (s : Store) : Resp LoginSummary :=
  if identifier == "" || password == "" || decide (password.length < 6) then
    Resp.err 400 "validation failed"
  else
    match s.members.find? (loginMatch (trimStr identifier)) with
    | none => Resp.err 401 "Invalid credentials"
    | some member =>
      if member.status != MemberStatus.active then
        Resp.err 401 "Membership is not active"
      else if password == "password123" || bcryptCompare password "" then
        Resp.ok
          { token := generateToken member.id
            id := member.id
            member_id := member.member_id
            first_name := member.first_name
            last_name := member.last_name
            email := member.email
            membership_type := member.membership_type
            status := member.status
            expiry_date := member.expiry_date
            qr_code := member.qr_code }
      else Resp.err 401 "Invalid credentials"

/-- Request body of POST /api/auth/register. -/
structure RegisterInput where
  first_name : String
  last_name : String
  email : String
  phone : String
  date_of_birth : SDate
  address : String
  password : String
deriving DecidableEq, Repr

/-- Model of the `isEmail` shape check of express-validator: the claims
only need that well-formed addresses pass, so the check is abstracted to
the presence of an `@`. -/
def emailShaped (e : String) : Bool := e.toList.contains '@'

/-- The validator chain of POST /api/auth/register. -/
def validRegister (i : RegisterInput) : Bool :=
  i.first_name != "" && decide (2 ≤ i.first_name.length) && decide (i.first_name.length ≤ 50) &&
  i.last_name != "" && decide (2 ≤ i.last_name.length) && decide (i.last_name.length ≤ 50) &&
  emailShaped i.email && i.phone != "" && i.address != "" &&
  decide (6 ≤ i.password.length)

/-- POST /api/auth/register (src/api/routes/auth.js).  `genMemberId`
stands for the generated `MEM...` member identifier.  An explicit query
rejects an already-registered email before the insert; a collision on the
generated member_id surfaces as the unique-constraint 400 from the catch
block.  The new member gets type `basic`, status `active` (column
default), a one-year expiry, zone 1, and the QR payload from the
beforeCreate hook; the password attribute is dropped by the schema. -/
def registerMember (now : SDate) (genMemberId : String) (i : RegisterInput)
    (s : Store) : Resp Unit × Store :=
  if !validRegister i then
    (Resp.err 400 "validation failed", s)
  else if (s.members.find? (fun m => m.email == i.email)).isSome then
    (Resp.err 400 "Email already registered", s)
  else if (s.members.find? (fun m => m.member_id == genMemberId)).isSome then
    (Resp.err 400 "Email or member ID already exists", s)
  else
    let member : Member :=
      { id := s.members.length + 1
        member_id := genMemberId
        first_name := i.first_name
        last_name := i.last_name
        email := i.email
        phone := i.phone
        date_of_birth := i.date_of_birth
        address := i.address
        membership_type := MembershipType.basic
        status := MemberStatus.active
        join_date := now
        expiry_date := addOneYear now
        zone_id := 1
        qr_code := some (makeQr genMemberId i.first_name i.last_name MembershipType.basic) }
    (Resp.ok (), { s with members := s.members ++ [member] })

/-- Request body of POST /app/members (admin create). -/
structure CreateMemberInput where
  first_name : String
  last_name : String
  email : String
  phone : String
  date_of_birth : SDate
  address : String
  membership_type : MembershipType
  zone_id : Nat
  expiry_date : SDate
deriving DecidableEq, Repr

/-- The validator chain of POST /app/members. -/
def validCreateMember (i : CreateMemberInput) : Bool :=
  i.first_name != "" && decide (2 ≤ i.first_name.length) && decide (i.first_name.length ≤ 50) &&
  i.last_name != "" && decide (2 ≤ i.last_name.length) && decide (i.last_name.length ≤ 50) &&
  emailShaped i.email && i.phone != "" && i.address != "" &&
  decide (1 ≤ i.zone_id)

/-- POST /app/members (admin members router in src/app/routes/events.js).
No explicit duplicate query: a duplicate email or member_id raises the
unique-constraint error inside `Member.create`, which the catch block maps
to a 400.  Defaults: status `active`, join_date now, is_active true; the
beforeCreate hook computes the QR payload. -/
def createMember (now : SDate) (genMemberId : String) (profileFile : Option String)
    (i : CreateMemberInput) (s : Store) : Resp Unit × Store :=
  if !validCreateMember i then
    (Resp.err 400 "validation failed", s)
  else if (s.members.find? (fun m =>
      m.email == i.email || m.member_id == genMemberId)).isSome then
    (Resp.err 400 "Email or member ID already exists", s)
  else
    let member : Member :=
      { id := s.members.length + 1
        member_id := genMemberId
        first_name := i.first_name
        last_name := i.last_name
        email := i.email
        phone := i.phone
        date_of_birth := i.date_of_birth
        address := i.address
        membership_type := i.membership_type
        status := MemberStatus.active
        join_date := now
        expiry_date := i.expiry_date
        zone_id := i.zone_id
        profile_image := profileFile
        qr_code := some (makeQr genMemberId i.first_name i.last_name i.membership_type) }
    (Resp.ok (), { s with members := s.members ++ [member] })

/-- POST /app/events/:id/attendance (admin events router in
src/app/routes/events.js).  Validation: `member_id` an integer at least 1
(the status is enum-checked, hence typed).  Upsert on the
(event_id, member_id) pair; on both paths `attendance_date` is set to now
exactly when the recorded status is `attended`, and to null otherwise.
On the update path an absent `notes` field is skipped by the ORM and the
stored notes survive. -/
def recordAttendance (now : SDate) (event_id member_id : Nat)
    (status : AttendanceStatus) (notes : Option String) (s : Store) :
    Resp Unit × Store :=
  if ¬ 1 ≤ member_id then
    (Resp.err 400 "validation failed", s)
  else
    match s.events.find? (fun e => e.id == event_id) with
    | none => (Resp.err 404 "Event not found", s)
    | some _ =>
      match s.members.find? (fun m => m.id == member_id) with
      | none => (Resp.err 404 "Member not found", s)
      | some _ =>
        match s.attendances.find? (fun a =>
            a.event_id == event_id && a.member_id == member_id) with
        | some existing =>
          (Resp.ok (),
           { s with
             attendances := s.attendances.map (fun a =>
               if a.id == existing.id then
                 { a with
                   status := status
                   notes := match notes with | some t => some t | none => a.notes
                   attendance_date :=
                     if status == AttendanceStatus.attended then some now else none }
               else a) })
        | none =>
          (Resp.ok (),
           { s with
             attendances := s.attendances ++
               [{ id := s.attendances.length + 1
                  event_id := event_id
                  member_id := member_id
                  status := status
                  registration_date := now
                  attendance_date :=
                    if status == AttendanceStatus.attended then some now else none
                  notes := notes }] })

/-- The where-clause of GET /app/members: only active rows, plus the
optional free-text search (ILIKE on first name, last name, email and
member_id) and the optional zone, status and membership-type filters. -/
def memberWhere (search : Option String) (zone : Option Nat)
    (status : Option MemberStatus) (membership_type : Option MembershipType)
    (m : Member) : Bool :=
  m.is_active &&
  (match search with
   | none => true
   | some q => iLike m.first_name q || iLike m.last_name q ||
               iLike m.email q || iLike m.member_id q) &&
  (match zone with | none => true | some z => m.zone_id == z) &&
  (match status with | none => true | some st => m.status == st) &&
  (match membership_type with | none => true | some t => m.membership_type == t)

/-- The rows GET /app/members selects before pagination is applied. -/
def memberQueryRows (search : Option String) (zone : Option Nat)
    (status : Option MemberStatus) (membership_type : Option MembershipType)
    (s : Store) : List Member :=
  s.members.filter (memberWhere search zone status membership_type)

/-- GET /app/members: the filtered rows, paginated LIMIT/OFFSET style. -/
def listMembers (search : Option String) (zone : Option Nat)
    (status : Option MemberStatus) (membership_type : Option MembershipType)
    (page limit : Nat) (s : Store) : List Member :=
  ((memberQueryRows search zone status membership_type s).drop ((page - 1) * limit)).take limit

/-! ## Concrete fixtures

Small stores used to instantiate the theorems and to exhibit concrete
behaviours of the handlers. -/

/-- A member fixture. -/
def mJohn : Member :=
  { id := 1, member_id := "MEM1", first_name := "John", last_name := "Doe"
    email := "john@example.com", phone := "5550100", date_of_birth := 19900101
    address := "1 Main St", membership_type := MembershipType.basic
    status := MemberStatus.active, join_date := 20230101
    expiry_date := 20240101, zone_id := 1 }

/-- A second member fixture. -/
def mJane : Member :=
  { mJohn with
    id := 2, member_id := "MEM2", first_name := "Jane", last_name := "Roe",
    email := "jane@example.com", phone := "5550200" }

/-- An event with no attendee cap. -/
def evOpen : Event :=
  { id := 1, title := "Workshop", event_date := 20240701, location := "Hall"
    event_type := EventType.workshop, max_attendees := none }

/-- The same event with a cap of one attendee. -/
def evOne : Event := { evOpen with max_attendees := some 1 }

/-- The same event with a stored cap of zero. -/
def evZero : Event := { evOpen with max_attendees := some 0 }

/-- mJohn already registered for event 1. -/
def attJohn : EventAttendance :=
  { id := 1, event_id := 1, member_id := 1, registration_date := 20240520 }

/-- Store with only mJohn. -/
def stJohn : Store := { zones := [(1, "Zone 1")], members := [mJohn] }

/-- Store whose event has a stored max_attendees of zero. -/
def stZeroCap : Store := { members := [mJohn], events := [evZero] }

/-- Store whose one-seat event is already at capacity with mJohn. -/
def stFull : Store :=
  { members := [mJohn, mJane], events := [evOne], attendances := [attJohn] }

/-- Store with an uncapped event and no registrations. -/
def stNoCap : Store := { members := [mJohn], events := [evOpen] }

/-- Store with an uncapped event where mJohn is already registered. -/
def stDup : Store :=
  { members := [mJohn], events := [evOpen], attendances := [attJohn] }

/-- A mobile registration request reusing the email of mJohn. -/
def regDup : RegisterInput :=
  { first_name := "Johnny", last_name := "Doe", email := "john@example.com"
    phone := "5550300", date_of_birth := 19910101, address := "2 Main St"
    password := "hunter2x" }

/-- An admin create-member request reusing the email of mJohn. -/
def createDup : CreateMemberInput :=
  { first_name := "Johnny", last_name := "Doe", email := "john@example.com"
    phone := "5550300", date_of_birth := 19910101, address := "2 Main St"
    membership_type := MembershipType.basic, zone_id := 1, expiry_date := 20250101 }

/-- mJohn with a suspended membership. -/
def mSus : Member := { mJohn with status := MemberStatus.suspended }

/-- mJane sharing the phone number of mJohn (the phone column carries no
unique constraint). -/
def mJaneP : Member := { mJane with phone := "5550100" }

/-- Store where a suspended member precedes an active member with the same
phone number. -/
def stTwoPhones : Store := { members := [mSus, mJaneP] }

/-- Notification fixtures: one unread row for member 1, one unread
broadcast, one unread row for member 2, one already-read row for
member 1. -/
def nJohnUnread : Notification :=
  { id := 1, member_id := some 1, title := "Hello", message := "m1"
    ntype := NotificationType.general }

/-- An unread broadcast notification. -/
def nBroadcast : Notification :=
  { id := 2, member_id := none, title := "News", message := "all"
    ntype := NotificationType.announcement, is_broadcast := true }

/-- An unread notification for member 2. -/
def nJaneUnread : Notification :=
  { id := 3, member_id := some 2, title := "Hi", message := "m2"
    ntype := NotificationType.general }

/-- An already-read notification for member 1. -/
def nJohnRead : Notification :=
  { id := 4, member_id := some 1, title := "Old", message := "m1"
    ntype := NotificationType.general, status := NotificationStatus.read }

/-- Store with the four notification fixtures. -/
def stNotif : Store :=
  { members := [mJohn, mJane]
    notifications := [nJohnUnread, nBroadcast, nJaneUnread, nJohnRead] }

/-! ## Theorems -/

/-- C1: after a successful `renew(memberId, type, method, amount)` call the
member expiry_date equals `max(now, old expiry_date) + 1 year`, the member
payment count increases by exactly 1, and the new Payment row has status
completed with the given amount. -/
theorem renewal_correct (now : SDate) (txnId : String) (mid : Nat)
    (mtype : MembershipType) (method : PaymentMethod) (amount : Int)
    (s : Store) (member : Member)
    (hval : 1 ≤ mid ∧ 0 ≤ amount)
    (hfind : s.members.find? (fun m => m.id == mid) = some member) :
    (renewal now txnId mid mtype method amount s).1 = Resp.ok () ∧
    (∀ m ∈ (renewal now txnId mid mtype method amount s).2.members,
       m.id = mid → m.expiry_date = addOneYear (max now member.expiry_date)) ∧
    (renewal now txnId mid mtype method amount s).2.payments.countP
        (fun p => p.member_id == mid) =
      s.payments.countP (fun p => p.member_id == mid) + 1 ∧
    ∃ p, (renewal now txnId mid mtype method amount s).2.payments = s.payments ++ [p] ∧
      p.status = PaymentStatus.completed ∧ p.amount = amount ∧ p.member_id = mid := by
  have hnn : ¬ ¬ (1 ≤ mid ∧ 0 ≤ amount) := not_not_intro hval
  simp only [renewal, hfind, if_neg hnn]
  refine ⟨trivial, ?_, ?_, ?_⟩
  · intro m hm hid
    rcases List.mem_map.mp hm with ⟨x, hx, hfx⟩
    by_cases hxm : (x.id == mid) = true
    · rw [if_pos hxm] at hfx
      subst hfx
      show (if member.expiry_date < now then addOneYear now
            else addOneYear member.expiry_date) = addOneYear (max now member.expiry_date)
      by_cases hlt : member.expiry_date < now
      · rw [if_pos hlt, Nat.max_eq_left (Nat.le_of_lt hlt)]
      · rw [if_neg hlt, Nat.max_eq_right (Nat.le_of_not_lt hlt)]
    · rw [if_neg hxm] at hfx
      subst hfx
      exact absurd (beq_iff_eq.mpr hid) hxm
  · rw [List.countP_append]
    simp
  · exact ⟨_, rfl, rfl, rfl, rfl⟩

/-- C5: `unreadCount(memberId)` is exactly the number of notification rows
whose status is unread and whose member_id equals the member or whose
is_broadcast flag is set. -/
theorem unreadCount_correct (mid : Nat) (s : Store) :
    unreadCount mid s = s.notifications.countP (fun n =>
      decide (n.status = NotificationStatus.unread ∧
        (n.member_id = some mid ∨ n.is_broadcast = true))) := by
  rw [unreadCount, ← List.countP_eq_length_filter]
  apply List.countP_congr
  intro n _
  simp only [Bool.and_eq_true, Bool.or_eq_true, beq_iff_eq, decide_eq_true_eq]
  tauto

/-- C9: for an event whose max_attendees is null the capacity check is
skipped: registration succeeds no matter how many attendance rows the
event already has, provided the member and the event exist and the pair is
not yet registered. -/
theorem registerForEvent_no_cap (now : SDate) (mid eid : Nat) (s : Store)
    (event : Event)
    (hval : 1 ≤ mid ∧ 1 ≤ eid)
    (hm : (s.members.find? (fun m => m.id == mid)).isSome)
    (he : s.events.find? (fun e => e.id == eid) = some event)
    (hmx : event.max_attendees = none)
    (hnodup : s.attendances.find? (fun a => a.member_id == mid && a.event_id == eid) = none) :
    (registerForEvent now mid eid s).1 = Resp.ok () ∧
    ∃ reg, (registerForEvent now mid eid s).2.attendances = s.attendances ++ [reg] ∧
      reg.member_id = mid ∧ reg.event_id = eid ∧
      reg.status = AttendanceStatus.registered := by
  have hnn : ¬ ¬ (1 ≤ mid ∧ 1 ≤ eid) := not_not_intro hval
  rcases Option.isSome_iff_exists.mp hm with ⟨mrow, hmrow⟩
  have hfull : eventIsFull event eid s = false := by
    rw [eventIsFull, hmx]
  simp only [registerForEvent, hmrow, he, hnodup, if_neg hnn, hfull, Bool.false_eq_true,
    if_false]
  exact ⟨trivial, _, rfl, rfl, rfl, rfl⟩

/-- Witness for renewal_correct: the spec scenario.  The member with expiry
2024-01-01 renews at a now of 2024-06-01 to premium by card for 99.99
(9999 cents); the renewal succeeds, the prior payment count rises by one
and the stored expiry becomes 2025-06-01. -/
theorem renewal_correct_witness :
    ((1 : Nat) ≤ 1 ∧ (0 : Int) ≤ 9999) ∧
    stJohn.members.find? (fun m => m.id == 1) = some mJohn ∧
    (renewal 20240601 "TXN1" 1 MembershipType.premium PaymentMethod.card 9999 stJohn).1 =
      Resp.ok () ∧
    (renewal 20240601 "TXN1" 1 MembershipType.premium PaymentMethod.card 9999
        stJohn).2.payments.countP (fun p => p.member_id == 1) =
      stJohn.payments.countP (fun p => p.member_id == 1) + 1 ∧
    (renewal 20240601 "TXN1" 1 MembershipType.premium PaymentMethod.card 9999
        stJohn).2.members.map (fun m => m.expiry_date) = [20250601] ∧
    (renewal 20240601 "TXN1" 1 MembershipType.premium PaymentMethod.card 9999
        stJohn).2.payments.map (fun p => (p.status, p.amount)) =
      [(PaymentStatus.completed, 9999)] := by
  have h := renewal_correct 20240601 "TXN1" 1 MembershipType.premium PaymentMethod.card
    9999 stJohn mJohn (by decide) (by decide)
  exact ⟨by decide, by decide, h.1, h.2.2.1, by decide, by decide⟩

/-- Witness for registerForEvent_no_cap: registering the sole member for
the uncapped event of stNoCap succeeds. -/
theorem registerForEvent_no_cap_witness :
    ((1 : Nat) ≤ 1 ∧ (1 : Nat) ≤ 1) ∧
    (stNoCap.members.find? (fun m => m.id == 1)).isSome = true ∧
    stNoCap.events.find? (fun e => e.id == 1) = some evOpen ∧
    evOpen.max_attendees = none ∧
    stNoCap.attendances.find? (fun a => a.member_id == 1 && a.event_id == 1) = none ∧
    (registerForEvent 20240601 1 1 stNoCap).1 = Resp.ok () := by
  have h := registerForEvent_no_cap 20240601 1 1 stNoCap evOpen (by decide) (by decide)
    (by decide) (by decide) (by decide)
  exact ⟨by decide, by decide, by decide, by decide, by decide, h.1⟩

/-- C2 counterexample: an event whose stored max_attendees is 0 (non-null)
and whose registered count (also 0) already reaches it is nevertheless
admitted: the `if (event.max_attendees)` truthiness guard treats the zero
cap as absent, skips the capacity check, and the registration succeeds and
inserts a row. -/
theorem registerForEvent_zero_cap_cex :
    evZero.max_attendees = some 0 ∧
    (0 : Int) ≤ (registeredCount 1 stZeroCap : Int) ∧
    (registerForEvent 20240601 1 1 stZeroCap).1 = Resp.ok () ∧
    (registerForEvent 20240601 1 1 stZeroCap).2.attendances ≠ stZeroCap.attendances := by
  decide

/-- C2 (amended): for an event whose max_attendees is non-null and nonzero,
registration is rejected with the capacity error whenever the count of
registered attendance rows already reaches max_attendees, and the store is
unchanged. -/
theorem registerForEvent_capacity (now : SDate) (mid eid : Nat) (s : Store)
    (event : Event) (mx : Int)
    (hval : 1 ≤ mid ∧ 1 ≤ eid)
    (hm : (s.members.find? (fun m => m.id == mid)).isSome)
    (he : s.events.find? (fun e => e.id == eid) = some event)
    (hmx : event.max_attendees = some mx) (hnz : mx ≠ 0)
    (hfull : mx ≤ (registeredCount eid s : Int)) :
    (registerForEvent now mid eid s).1 = Resp.err 400 "Event is full" ∧
    (registerForEvent now mid eid s).2 = s := by
  have hnn : ¬ ¬ (1 ≤ mid ∧ 1 ≤ eid) := not_not_intro hval
  rcases Option.isSome_iff_exists.mp hm with ⟨mrow, hmrow⟩
  have hfullb : eventIsFull event eid s = true := by
    rw [eventIsFull, hmx]
    simp [hnz, hfull]
  simp only [registerForEvent, hmrow, he, if_neg hnn, hfullb, if_true]
  exact ⟨trivial, trivial⟩

/-- Witness for registerForEvent_capacity: the spec scenario.  The event
has max_attendees 1 and mJohn already registered; the registration attempt
of mJane returns the capacity error and creates no row. -/
theorem registerForEvent_capacity_witness :
    ((1 : Nat) ≤ 2 ∧ (1 : Nat) ≤ 1) ∧
    evOne.max_attendees = some 1 ∧
    (1 : Int) ≤ (registeredCount 1 stFull : Int) ∧
    (registerForEvent 20240601 2 1 stFull).1 = Resp.err 400 "Event is full" ∧
    (registerForEvent 20240601 2 1 stFull).2 = stFull := by
  have h := registerForEvent_capacity 20240601 2 1 stFull evOne 1 (by decide) (by decide)
    (by decide) (by decide) (by decide) (by decide)
  exact ⟨by decide, by decide, by decide, h.1, h.2⟩

/-- C3 counterexample: when the event is already at capacity, a repeated
registration for an already-registered pair is rejected by the capacity
check, which runs first: the error is the capacity error, not the
duplicate-registration error the claim states. -/
theorem registerForEvent_dup_full_cex :
    (stFull.attendances.find? (fun a => a.member_id == 1 && a.event_id == 1)).isSome = true ∧
    (registerForEvent 20240601 1 1 stFull).1 = Resp.err 400 "Event is full" ∧
    (registerForEvent 20240601 1 1 stFull).1 ≠
      Resp.err 400 "Already registered for this event" ∧
    (registerForEvent 20240601 1 1 stFull).2.attendances = stFull.attendances := by
  decide

/-- C3 (amended): when an attendance row already exists for the pair and
the capacity check does not fire, the second registration is rejected with
the duplicate-registration error and the store is unchanged (when the
capacity check does fire the rejection carries the capacity error
instead; the stored rows are unchanged either way). -/
theorem registerForEvent_duplicate (now : SDate) (mid eid : Nat) (s : Store)
    (event : Event) (arow : EventAttendance)
    (hval : 1 ≤ mid ∧ 1 ≤ eid)
    (hm : (s.members.find? (fun m => m.id == mid)).isSome)
    (he : s.events.find? (fun e => e.id == eid) = some event)
    (hnf : eventIsFull event eid s = false)
    (hdup : s.attendances.find? (fun a => a.member_id == mid && a.event_id == eid) = some arow) :
    (registerForEvent now mid eid s).1 = Resp.err 400 "Already registered for this event" ∧
    (registerForEvent now mid eid s).2 = s := by
  have hnn : ¬ ¬ (1 ≤ mid ∧ 1 ≤ eid) := not_not_intro hval
  rcases Option.isSome_iff_exists.mp hm with ⟨mrow, hmrow⟩
  simp only [registerForEvent, hmrow, he, if_neg hnn, hnf, Bool.false_eq_true, if_false, hdup]
  exact ⟨trivial, trivial⟩

/-- Witness for registerForEvent_duplicate: mJohn, already registered for
the uncapped event of stDup, attempts to register again and is rejected
with the duplicate error, leaving the store unchanged. -/
theorem registerForEvent_duplicate_witness :
    ((1 : Nat) ≤ 1 ∧ (1 : Nat) ≤ 1) ∧
    eventIsFull evOpen 1 stDup = false ∧
    stDup.attendances.find? (fun a => a.member_id == 1 && a.event_id == 1) = some attJohn ∧
    (registerForEvent 20240601 1 1 stDup).1 =
      Resp.err 400 "Already registered for this event" ∧
    (registerForEvent 20240601 1 1 stDup).2 = stDup := by
  have h := registerForEvent_duplicate 20240601 1 1 stDup evOpen attJohn (by decide)
    (by decide) (by decide) (by decide) (by decide)
  exact ⟨by decide, by decide, by decide, h.1, h.2⟩

/-- C4: with an email already present in the members table, the mobile
register route fails with its explicit uniqueness 400 and the admin create
route fails with the unique-constraint 400, and neither changes the
members table. -/
theorem duplicate_email_rejected (now : SDate) (genId : String)
    (i : RegisterInput) (j : CreateMemberInput) (file : Option String) (s : Store)
    (hv1 : validRegister i = true) (hv2 : validCreateMember j = true)
    (h1 : ∃ m ∈ s.members, m.email = i.email)
    (h2 : ∃ m ∈ s.members, m.email = j.email) :
    ((registerMember now genId i s).1 = Resp.err 400 "Email already registered" ∧
     (registerMember now genId i s).2.members = s.members) ∧
    ((createMember now genId file j s).1 = Resp.err 400 "Email or member ID already exists" ∧
     (createMember now genId file j s).2.members = s.members) := by
  have hs1 : (s.members.find? (fun m => m.email == i.email)).isSome = true := by
    rw [List.find?_isSome]
    rcases h1 with ⟨m, hm, he⟩
    exact ⟨m, hm, beq_iff_eq.mpr he⟩
  have hs2 : (s.members.find? (fun m =>
      m.email == j.email || m.member_id == genId)).isSome = true := by
    rw [List.find?_isSome]
    rcases h2 with ⟨m, hm, he⟩
    exact ⟨m, hm, by simp [he]⟩
  constructor
  · simp only [registerMember, hv1, Bool.not_true, Bool.false_eq_true, if_false, hs1, if_true]
    exact ⟨trivial, trivial⟩
  · simp only [createMember, hv2, Bool.not_true, Bool.false_eq_true, if_false, hs2, if_true]
    exact ⟨trivial, trivial⟩

/-- Witness for duplicate_email_rejected: both creation routes called with
the email of mJohn against stJohn fail with the uniqueness 400 and leave
the members table unchanged. -/
theorem duplicate_email_rejected_witness :
    validRegister regDup = true ∧
    validCreateMember createDup = true ∧
    mJohn ∈ stJohn.members ∧ mJohn.email = regDup.email ∧ mJohn.email = createDup.email ∧
    (registerMember 20240601 "MEM9" regDup stJohn).1 =
      Resp.err 400 "Email already registered" ∧
    (createMember 20240601 "MEM9" none createDup stJohn).1 =
      Resp.err 400 "Email or member ID already exists" := by
  have h := duplicate_email_rejected 20240601 "MEM9" regDup createDup none stJohn
    (by decide) (by decide) ⟨mJohn, by decide, by decide⟩ ⟨mJohn, by decide, by decide⟩
  exact ⟨by decide, by decide, by decide, by decide, by decide, h.1.1, h.2.1⟩

/-- A needle without spaces never straddles the space splicing two lists:
matching at the front of `A ++ space :: B` is matching at the front of
`A`. -/
theorem leadsWith_append_space (needle A B : List Char) (h : ' ' ∉ needle) :
    leadsWith needle (A ++ ' ' :: B) = leadsWith needle A := by
  induction A generalizing needle with
  | nil =>
    cases needle with
    | nil => rfl
    | cons n ns =>
      have hn : (n == ' ') = false :=
        beq_eq_false_iff_ne.mpr (fun he => h (by simp [he]))
      simp [leadsWith, hn]
  | cons a as ih =>
    cases needle with
    | nil => rfl
    | cons n ns =>
      have hns : ' ' ∉ ns := fun hm => h (List.mem_cons_of_mem _ hm)
      simp only [List.cons_append, leadsWith, List.append_eq, ih ns hns]

/-- Occurrence of a space-free needle in `A ++ space :: B` is occurrence
in `A` or in `B`. -/
theorem occursIn_append_space (needle A B : List Char) (h : ' ' ∉ needle) :
    occursIn needle (A ++ ' ' :: B) = (occursIn needle A || occursIn needle B) := by
  induction A with
  | nil =>
    cases needle with
    | nil => simp [occursIn, leadsWith]
    | cons n ns =>
      have hn : (n == ' ') = false :=
        beq_eq_false_iff_ne.mpr (fun he => h (by simp [he]))
      simp [occursIn, leadsWith, hn]
  | cons a as ih =>
    have h1 : occursIn needle ((a :: as) ++ ' ' :: B) =
        (leadsWith needle ((a :: as) ++ ' ' :: B) || occursIn needle (as ++ ' ' :: B)) := rfl
    rw [h1, leadsWith_append_space _ _ _ h, ih]
    show _ = ((leadsWith needle (a :: as) || occursIn needle as) || occursIn needle B)
    rw [Bool.or_assoc]

/-- Case-insensitive containment of a space-free needle in the full name
is containment in the first name or in the last name. -/
theorem iLike_fullname (first last q : String) (h : ' ' ∉ lowerList q.toList) :
    iLike (first ++ " " ++ last) q = (iLike first q || iLike last q) := by
  unfold iLike
  have hdata : (first ++ " " ++ last).toList = first.toList ++ ' ' :: last.toList := by
    simp [String.toList, String.data_append]
  rw [hdata]
  have hsp : Char.toLower ' ' = ' ' := by decide
  have hlow : lowerList (first.toList ++ ' ' :: last.toList) =
      lowerList first.toList ++ ' ' :: lowerList last.toList := by
    simp [lowerList, hsp]
  rw [hlow, occursIn_append_space _ _ _ h]

/-- C6: the admin member list filtered with search doe (and no other
filter) selects exactly the active members whose full name, email or
member_id contains doe case-insensitively. -/
theorem member_search_doe (s : Store) (m : Member) :
    m ∈ memberQueryRows (some "doe") none none none s ↔
      m ∈ s.members ∧ m.is_active = true ∧
      (iLike (m.first_name ++ " " ++ m.last_name) "doe" = true ∨
       iLike m.email "doe" = true ∨ iLike m.member_id "doe" = true) := by
  have hq : ' ' ∉ lowerList "doe".toList := by decide
  rw [memberQueryRows, List.mem_filter, iLike_fullname _ _ _ hq]
  simp only [memberWhere, Bool.and_eq_true, Bool.or_eq_true, Bool.and_true]
  tauto

/-- C7 counterexample: the phone column is not unique, and a member can
also be reached through phone while another matches by email, so several
active-flagged members can match one identifier.  In stTwoPhones the
suspended mSus precedes the active mJaneP, both carrying phone 5550100;
login with that phone and the bypass password fails with 401 even though
an active-flagged member matching the identifier, with status active and
an accepted password, exists in the store. -/
theorem login_exists_cex :
    (mJaneP ∈ stTwoPhones.members ∧ mJaneP.is_active = true ∧
     mJaneP.phone = "5550100" ∧ mJaneP.status = MemberStatus.active) ∧
    login "5550100" "password123" stTwoPhones =
      Resp.err 401 "Membership is not active" := by
  decide

/-- C7 (amended): login succeeds exactly when the input passes field
validation and the FIRST active-flagged member in store order matching the
trimmed identifier by email, phone or member_id has status active and the
password is the bypass value or matches the (absent) stored hash; every
failure is reported with status 400 (validation) or 401 (authentication). -/
theorem login_succeeds_iff (identifier password : String) (s : Store) :
    ((∃ r, login identifier password s = Resp.ok r) ↔
      ((identifier == "" || password == "" || decide (password.length < 6)) = false ∧
       ∃ member, s.members.find? (loginMatch (trimStr identifier)) = some member ∧
         member.status = MemberStatus.active ∧
         (password = "password123" ∨ bcryptCompare password "" = true))) ∧
    (∀ c msg, login identifier password s = Resp.err c msg → c = 400 ∨ c = 401) := by
  rw [login]
  by_cases hv : (identifier == "" || password == "" || decide (password.length < 6)) = true
  · rw [if_pos hv]
    refine ⟨⟨fun h => ?_, fun h => ?_⟩, fun c msg h => ?_⟩
    · rcases h with ⟨r, hr⟩
      cases hr
    · rw [hv] at h
      cases h.1
    · cases h
      exact Or.inl rfl
  · rw [if_neg hv]
    have hvf : (identifier == "" || password == "" || decide (password.length < 6)) = false :=
      Bool.not_eq_true _ ▸ eq_false_of_ne_true hv
    cases hf : s.members.find? (loginMatch (trimStr identifier)) with
    | none =>
      dsimp only
      refine ⟨⟨fun h => ?_, fun h => ?_⟩, fun c msg h => ?_⟩
      · rcases h with ⟨r, hr⟩
        cases hr
      · rcases h with ⟨-, member, hmem, -⟩
        cases hmem
      · cases h
        exact Or.inr rfl
    | some member =>
      dsimp only
      by_cases hst : (member.status != MemberStatus.active) = true
      · rw [if_pos hst]
        have hne : member.status ≠ MemberStatus.active := by
          simpa using hst
        refine ⟨⟨fun h => ?_, fun h => ?_⟩, fun c msg h => ?_⟩
        · rcases h with ⟨r, hr⟩
          cases hr
        · rcases h with ⟨-, member2, hmem2, hact, -⟩
          injection hmem2 with h2
          exact ((hne (h2 ▸ hact)).elim)
        · cases h
          exact Or.inr rfl
      · rw [if_neg hst]
        have hact : member.status = MemberStatus.active := by
          simpa using hst
        by_cases hpw : (password == "password123" || bcryptCompare password "") = true
        · rw [if_pos hpw]
          refine ⟨⟨fun _ => ⟨hvf, member, rfl, hact, ?_⟩, fun _ => ⟨_, rfl⟩⟩,
            fun c msg h => ?_⟩
          · rcases Bool.or_eq_true _ _ ▸ hpw with h1 | h1
            · exact Or.inl (by simpa using h1)
            · exact Or.inr h1
          · cases h
        · rw [if_neg hpw]
          refine ⟨⟨fun h => ?_, fun h => ?_⟩, fun c msg h => ?_⟩
          · rcases h with ⟨r, hr⟩
            cases hr
          · rcases h with ⟨-, member2, hmem2, -, hpass⟩
            refine absurd ?_ hpw
            rcases hpass with h1 | h1
            · exact Bool.or_eq_true _ _ ▸ Or.inl (by simpa using h1)
            · exact Bool.or_eq_true _ _ ▸ Or.inr h1
          · cases h
            exact Or.inr rfl

/-- C8: after a successful record-attendance upsert on a well-formed
attendance table (unique (event, member) pairs, enforced by the unique
index of the schema), the operation
reports success, a row for the pair exists, and every stored row for the
pair carries the requested status with a non-null attendance_date exactly
when that status is attended. -/
theorem recordAttendance_date_iff (now : SDate) (eid mid : Nat)
    (st : AttendanceStatus) (notes : Option String) (s : Store)
    (hval : 1 ≤ mid)
    (he : (s.events.find? (fun e => e.id == eid)).isSome)
    (hm : (s.members.find? (fun m => m.id == mid)).isSome)
    (hpair : s.attendances.Pairwise (fun a b =>
      ¬(a.event_id = b.event_id ∧ a.member_id = b.member_id))) :
    (recordAttendance now eid mid st notes s).1 = Resp.ok () ∧
    (∃ a ∈ (recordAttendance now eid mid st notes s).2.attendances,
       a.event_id = eid ∧ a.member_id = mid) ∧
    (∀ a ∈ (recordAttendance now eid mid st notes s).2.attendances,
       a.event_id = eid → a.member_id = mid →
       a.status = st ∧ (a.attendance_date ≠ none ↔ st = AttendanceStatus.attended)) := by
  have hnn : ¬ ¬ 1 ≤ mid := not_not_intro hval
  rcases Option.isSome_iff_exists.mp he with ⟨ev, hev⟩
  rcases Option.isSome_iff_exists.mp hm with ⟨mr, hmr⟩
  cases hex : s.attendances.find? (fun a => a.event_id == eid && a.member_id == mid) with
  | none =>
    simp only [recordAttendance, hev, hmr, hex, if_neg hnn]
    refine ⟨trivial, ?_, ?_⟩
    · exact ⟨_, List.mem_append_right _ (List.mem_singleton.mpr rfl), rfl, rfl⟩
    · intro a ha hae ham
      rcases List.mem_append.mp ha with ha1 | ha2
      · have hfalse := List.find?_eq_none.mp hex a ha1
        rw [hae, ham] at hfalse
        simp at hfalse
      · rcases List.mem_singleton.mp ha2 with rfl
        refine ⟨rfl, ?_⟩
        cases st <;> simp
  | some existing =>
    have hexmem := List.mem_of_find?_eq_some hex
    have hexpred := List.find?_some hex
    rw [Bool.and_eq_true, beq_iff_eq, beq_iff_eq] at hexpred
    simp only [recordAttendance, hev, hmr, hex, if_neg hnn]
    refine ⟨trivial, ?_, ?_⟩
    · refine ⟨_, List.mem_map.mpr ⟨existing, hexmem, rfl⟩, ?_⟩
      simp only [beq_self_eq_true, if_true]
      exact ⟨hexpred.1, hexpred.2⟩
    · intro a ha hae ham
      rcases List.mem_map.mp ha with ⟨x, hx, hfx⟩
      by_cases hxid : (x.id == existing.id) = true
      · rw [if_pos hxid] at hfx
        subst hfx
        refine ⟨rfl, ?_⟩
        cases st <;> simp
      · rw [if_neg hxid] at hfx
        subst hfx
        have hxe : x = existing := by
          by_contra hne
          have hsymm : Symmetric (fun a b : EventAttendance =>
              ¬(a.event_id = b.event_id ∧ a.member_id = b.member_id)) :=
            fun _ _ h hp2 => h ⟨hp2.1.symm, hp2.2.symm⟩
          exact (hpair.forall hsymm hx hexmem hne)
            ⟨hae.trans hexpred.1.symm, ham.trans hexpred.2.symm⟩
        rw [hxe] at hxid
        simp at hxid

/-- After the mark-all-read update, no unread row addressed to the member
or broadcast remains. -/
theorem touchRow_clears (now : SDate) (mid : Nat) (l : List Notification) :
    (l.map (touchRow now mid)).filter (fun n =>
      (n.member_id == some mid || n.is_broadcast) &&
      n.status == NotificationStatus.unread) = [] := by
  induction l with
  | nil => rfl
  | cons x xs ih =>
    have hp : ((fun n => (n.member_id == some mid || n.is_broadcast) &&
        n.status == NotificationStatus.unread) (touchRow now mid x)) = false := by
      rw [touchRow]
      by_cases hc : ((x.member_id == some mid || x.is_broadcast) &&
          x.status == NotificationStatus.unread) = true
      · rw [if_pos hc]
        simp
      · rw [if_neg hc]
        simpa using hc
    simp only [List.map_cons, List.filter_cons, hp, Bool.false_eq_true, if_false]
    exact ih

/-- For a member other than the one marking all read, the rows that
remain unread and relevant after the update are exactly the directly
addressed, non-broadcast unread rows from before. -/
theorem touch_other_pred (now : SDate) (mid m2 : Nat) (hne : m2 ≠ mid)
    (n : Notification) :
    (((touchRow now mid n).member_id == some m2 || (touchRow now mid n).is_broadcast) &&
      ((touchRow now mid n).status == NotificationStatus.unread)) =
    (n.member_id == some m2 && (n.status == NotificationStatus.unread) &&
      !n.is_broadcast) := by
  have hkey : (n.member_id == some mid) = true → (n.member_id == some m2) = false := by
    intro h1
    rw [beq_iff_eq] at h1
    rw [beq_eq_false_iff_ne, h1]
    intro h2
    exact hne (Option.some.inj h2).symm
  by_cases hU : (n.status == NotificationStatus.unread) = true
  · by_cases hB : n.is_broadcast = true
    · simp [touchRow, hU, hB]
    · by_cases hA : (n.member_id == some mid) = true
      · simp [touchRow, hU, hA, hkey hA, hB]
      · simp [touchRow, hU, hA, hB]
  · simp [touchRow, hU]

/-- C10: mark-all-read marks exactly the unread rows addressed to the
member or broadcast as read (all other rows unchanged); afterwards the
member has unread count zero and, because the shared broadcast rows were
updated, every other member counts only the unread rows addressed
directly to them. -/
theorem markAllRead_correct (now : SDate) (mid : Nat) (s : Store)
    (hval : 1 ≤ mid) :
    (markAllRead now mid s).1 = Resp.ok () ∧
    (markAllRead now mid s).2.notifications = s.notifications.map (fun n =>
      if (n.member_id = some mid ∨ n.is_broadcast = true) ∧
         n.status = NotificationStatus.unread then
        { n with status := NotificationStatus.read, read_at := some now }
      else n) ∧
    unreadCount mid (markAllRead now mid s).2 = 0 ∧
    (∀ m2, m2 ≠ mid → unreadCount m2 (markAllRead now mid s).2 =
      s.notifications.countP (fun n => n.member_id == some m2 &&
        (n.status == NotificationStatus.unread) && !n.is_broadcast)) := by
  have hnn : ¬ ¬ 1 ≤ mid := not_not_intro hval
  simp only [markAllRead, if_neg hnn]
  refine ⟨trivial, ?_, ?_, ?_⟩
  · apply List.map_congr_left
    intro n _
    rw [touchRow]
    by_cases hc : (n.member_id = some mid ∨ n.is_broadcast = true) ∧
        n.status = NotificationStatus.unread
    · rw [if_pos ?_, if_pos hc]
      rcases hc with ⟨hor, hu⟩
      rcases hor with h | h <;> simp [h, hu]
    · rw [if_neg ?_, if_neg hc]
      intro hb
      apply hc
      simpa only [Bool.and_eq_true, Bool.or_eq_true, beq_iff_eq] using hb
  · simp only [unreadCount]
    rw [touchRow_clears]
    rfl
  · intro m2 hm2
    simp only [unreadCount]
    rw [List.filter_map, List.length_map, ← List.countP_eq_length_filter]
    apply List.countP_congr
    intro n _
    exact iff_of_eq (congrArg (· = true) (touch_other_pred now mid m2 hm2 n))

/-- Witness for recordAttendance_date_iff: recording status attended for
the already-registered pair of stDup succeeds and stores a non-null
attendance_date on the row. -/
theorem recordAttendance_date_iff_witness :
    (1 : Nat) ≤ 1 ∧
    (stDup.events.find? (fun e => e.id == 1)).isSome = true ∧
    (stDup.members.find? (fun m => m.id == 1)).isSome = true ∧
    (recordAttendance 20240701 1 1 AttendanceStatus.attended none stDup).1 = Resp.ok () ∧
    (recordAttendance 20240701 1 1 AttendanceStatus.attended none stDup).2.attendances.map
      (fun a => (a.status, a.attendance_date)) =
      [(AttendanceStatus.attended, some 20240701)] := by
  have h := recordAttendance_date_iff 20240701 1 1 AttendanceStatus.attended none stDup
    (by decide) (by decide) (by decide) (by simp [stDup])
  exact ⟨by decide, by decide, by decide, h.1, by decide⟩

/-- Witness for markAllRead_correct: in stNotif member 2 initially counts
two unread rows (one direct, one broadcast); after member 1 marks all
read, member 1 counts zero and member 2 counts only the one direct row,
because the shared broadcast row was marked read. -/
theorem markAllRead_correct_witness :
    (1 : Nat) ≤ 1 ∧
    unreadCount 2 stNotif = 2 ∧
    unreadCount 1 (markAllRead 20240601 1 stNotif).2 = 0 ∧
    unreadCount 2 (markAllRead 20240601 1 stNotif).2 =
      stNotif.notifications.countP (fun n => n.member_id == some 2 &&
        (n.status == NotificationStatus.unread) && !n.is_broadcast) ∧
    unreadCount 2 (markAllRead 20240601 1 stNotif).2 = 1 := by
  have h := markAllRead_correct 20240601 1 stNotif (by decide)
  exact ⟨by decide, by decide, h.2.2.1, h.2.2.2 2 (by decide), by decide⟩

end MemberMgmt
